import Mathlib

/-!
Shallow embedding of the read path of `src/cfile/cfile_reader.cc` from the
kudu cfile core: framing codec, block reads, recursive index descent, and
the positional iterator, together with theorems settling the frozen claims.

Machine integers are modelled as `Nat` with explicit `% 2^64` where the C++
performs wrap-around `uint64_t` arithmetic.  Fallible C++ `Status` results
are modelled by `Except Error`; fatal `CHECK`/`DCHECK` aborts by the
`Outcome.fatal` constructor (they are not soft errors).  Out-parameters that
a failing callee may leave unwritten are modelled explicitly (the caller's
uninitialized stack value is threaded as a `garbage` parameter).
-/

namespace Kudu

/-- The error categories of `util/status.h` used by this core. -/
inductive Error where
  | corruption (msg : String)
  | ioError (msg : String)
  | notFound (msg : String)
deriving DecidableEq, Repr

/-- Result of an operation that can also hit a fatal `CHECK`/`DCHECK`
(contract violation, aborts the process rather than returning a Status). -/
inductive Outcome (α : Type) where
  | ok (a : α)
  | err (e : Error)
  | fatal (msg : String)
deriving DecidableEq, Repr

/-- `kMagicAndLengthSize` (cfile_reader.cc:23). -/
def kMagicAndLengthSize : Nat := 12

/-- `kMaxHeaderFooterPBSize = 64*1024` (cfile_reader.cc:24). -/
def kMaxHeaderFooterPBSize : Nat := 64 * 1024

/-- Modelled from the spec: `kMagicString`, declared in `cfile.h` which is not
under `src/`; the spec (section 8) gives the magic as the 8 ASCII bytes of
"kuducfl!". Only its length (8) and fixedness matter to the claims. -/
def kMagicString : List Nat := [0x6b, 0x75, 0x64, 0x75, 0x63, 0x66, 0x6c, 0x21]

/-- `DecodeFixed32` (util/coding.h): little-endian u32 from four bytes. -/
def decodeFixed32 (b0 b1 b2 b3 : Nat) : Nat :=
  b0 + b1 * 256 + b2 * 65536 + b3 * 16777216

/-- The little-endian u32 at position 8..11 of a preamble slice. -/
def preambleLen (data : List Nat) : Nat :=
  decodeFixed32 (data.getD 8 0) (data.getD 9 0) (data.getD 10 0) (data.getD 11 0)

/-- `ParseMagicAndLength` (cfile_reader.cc:26-42), with the out-parameter
`*parsed_len` modelled explicitly: the second component is `some len` exactly
when the C++ code has written through the pointer (which happens before the
final bounds check, cfile_reader.cc:36), `none` when the function returns
without writing it. -/
def parseMagicAndLength (data : List Nat) : Except Error Unit × Option Nat :=
  if data.length ≠ kMagicAndLengthSize then
    (.error (.corruption "Bad size data"), none)
  else if data.take 8 ≠ kMagicString then
    (.error (.corruption "bad magic"), none)
  else
    let len := preambleLen data
    if len ≤ 0 ∨ len > kMaxHeaderFooterPBSize then
      (.error (.corruption "invalid data size"), some len)
    else
      (.ok (), some len)

/-- The random-access file collaborator: `file_->Read(offset, length, &slice,
scratch)` returns a byte slice (possibly shorter than requested) or fails.
`size` is `file_size_`.  The file abstraction is external to the core
(spec section 1), so reads are an arbitrary function. -/
structure FileModel where
  size : Nat
  read : Nat → Nat → Except Error (List Nat)

/-- `CFileReader::ReadMagicAndLength` (cfile_reader.cc:44-52), with the same
explicit out-parameter convention as `parseMagicAndLength`: if the underlying
read fails the out-parameter is never written. -/
def readMagicAndLength (f : FileModel) (offset : Nat) :
    Except Error Unit × Option Nat :=
  match f.read offset kMagicAndLengthSize with
  | .error e => (.error e, none)
  | .ok slice => parseMagicAndLength slice

/-- Wrap-around `uint64_t` subtraction `a - b` for `a, b < 2^64`. -/
def wsub64 (a b : Nat) : Nat :=
  (a % 2 ^ 64 + 2 ^ 64 - b % 2 ^ 64) % 2 ^ 64

/-- `BlockPointer` (block_pointer.h): immutable (offset, size) descriptor.
`offset` is a `uint64_t`, `size` fits in a `uint64_t`. -/
structure BlockPointer where
  offset : Nat
  size : Nat
deriving DecidableEq, Repr

/-- `BlockData` (cfile_reader.h): read-only byte view.  Buffer sharing and
ownership are a memory-layout concern with no behavioural content here, so
only the byte contents are modelled. -/
structure BlockData where
  data : List Nat
deriving DecidableEq, Repr

/-- `CFileHeaderPB`: opaque structured metadata record; the parse is an
external collaborator, so the content is opaque bytes. -/
structure CFileHeaderPB where
  raw : List Nat
deriving DecidableEq, Repr

/-- A default-constructed (`new CFileHeaderPB()`) header object. -/
def CFileHeaderPB.empty : CFileHeaderPB := ⟨[]⟩

/-- One entry of the footer's `btrees()` list: `BTreeInfoPB` with a metadata
identifier string and a root block pointer. -/
structure BTreeInfoPB where
  identifier : String
  rootBlock : BlockPointer
deriving DecidableEq, Repr

/-- `CFileFooterPB`: the footer metadata record; the part this core consults
is the ordered list of named B-tree descriptors. -/
structure CFileFooterPB where
  btrees : List BTreeInfoPB
deriving DecidableEq, Repr

/-- A default-constructed (`new CFileFooterPB()`) footer object. -/
def CFileFooterPB.empty : CFileFooterPB := ⟨[]⟩

/-- The protobuf parsers (`ParseFromArray`) for the header and footer records:
external collaborators, modelled as arbitrary functions of the slice bytes
and the declared payload length, returning `none` on parse failure. -/
structure ParserModel where
  parseHeader : List Nat → Nat → Option CFileHeaderPB
  parseFooter : List Nat → Nat → Option CFileFooterPB

/-- The reader lifecycle state (`cfile_reader.h`): the source recognizes
exactly `kUninitialized` and `kInitialized`. -/
inductive ReaderState where
  | kUninitialized
  | kInitialized
deriving DecidableEq, Repr

/-- `CFileReader` mutable state: lifecycle flag and the parsed records.
The file handle and `file_size_` are carried by the `FileModel` argument of
each operation. -/
structure CFileReader where
  state : ReaderState
  header : Option CFileHeaderPB
  footer : Option CFileFooterPB
deriving DecidableEq, Repr

/-- Modelled from the spec: the `CFileReader` constructor (cfile_reader.h is
not under `src/`); per the spec ("Created uninitialized"), a new reader is in
state `kUninitialized` with no parsed records. -/
def CFileReader.new : CFileReader :=
  ⟨.kUninitialized, none, none⟩

/-- `CFileReader::ReadAndParseHeader` (cfile_reader.cc:67-90).  Returns the
status outcome together with the reader state after the call (the C++ method
mutates `header_` in place; `header_.reset` happens before the payload
read). -/
def CFileReader.ReadAndParseHeader (f : FileModel) (p : ParserModel)
    (r : CFileReader) : Outcome Unit × CFileReader :=
  if r.state ≠ .kUninitialized then (.fatal "bad state (header)", r)
  else
    match readMagicAndLength f 0 with
    | (.error e, _) => (.err e, r)
    | (.ok _, w) =>
      let headerSize := w.getD 0
      let r1 := { r with header := some CFileHeaderPB.empty }
      match f.read kMagicAndLengthSize headerSize with
      | .error e => (.err e, r1)
      | .ok slice =>
        match p.parseHeader slice headerSize with
        | none => (.err (.corruption "Invalid cfile pb header"), r1)
        | some h => (.ok (), { r with header := some h })

/-- `CFileReader::ReadAndParseFooter` (cfile_reader.cc:93-117).  The `garbage`
parameter is the value the uninitialized stack variable `footer_size` holds
when `ReadMagicAndLength` fails without writing its out-parameter: the source
(cfile_reader.cc:101) DISCARDS the status of that call and proceeds to use
`footer_size` regardless. -/
def CFileReader.ReadAndParseFooter (f : FileModel) (p : ParserModel)
    (garbage : Nat) (r : CFileReader) : Outcome Unit × CFileReader :=
  if r.state ≠ .kUninitialized then (.fatal "bad state (footer)", r)
  else if ¬ f.size > kMagicAndLengthSize * 2 then (.fatal "file too short", r)
  else
    let (_, w) := readMagicAndLength f (f.size - kMagicAndLengthSize)
    let footerSize := w.getD garbage
    let r1 := { r with footer := some CFileFooterPB.empty }
    let off := wsub64 (wsub64 f.size kMagicAndLengthSize) footerSize
    match f.read off footerSize with
    | .error e => (.err e, r1)
    | .ok slice =>
      match p.parseFooter slice footerSize with
      | none => (.err (.corruption "Invalid cfile pb footer"), r1)
      | some ftr => (.ok (), { r with footer := some ftr })

/-- `CFileReader::Init` (cfile_reader.cc:54-65): fatal unless uninitialized;
header parse, then footer parse, each short-circuiting; only then the state
transition to `kInitialized`. -/
def CFileReader.Init (f : FileModel) (p : ParserModel) (garbage : Nat)
    (r : CFileReader) : Outcome Unit × CFileReader :=
  if r.state ≠ .kUninitialized then
    (.fatal "should be uninitialized before Init()", r)
  else
    match r.ReadAndParseHeader f p with
    | (.ok _, r1) =>
      match r1.ReadAndParseFooter f p garbage with
      | (.ok _, r2) => (.ok (), { r2 with state := .kInitialized })
      | (.err e, r2) => (.err e, r2)
      | (.fatal m, r2) => (.fatal m, r2)
    | (.err e, r1) => (.err e, r1)
    | (.fatal m, r1) => (.fatal m, r1)

/-- `CFileReader::ReadBlock` (cfile_reader.cc:119-139).  The bounds `CHECK`
computes `ptr.offset() + ptr.size()` in wrap-around `uint64_t` arithmetic,
hence the explicit `% 2^64`.  The method is `const`: the reader state is not
mutated, so only the outcome is returned. -/
def CFileReader.ReadBlock (f : FileModel) (r : CFileReader)
    (ptr : BlockPointer) : Outcome BlockData :=
  if r.state ≠ .kInitialized then .fatal "bad state (ReadBlock)"
  else if ¬ (ptr.offset % 2 ^ 64 > 0 ∧
             (ptr.offset + ptr.size) % 2 ^ 64 < f.size) then
    .fatal "bad offset"
  else
    match f.read ptr.offset ptr.size with
    | .error e => .err e
    | .ok s =>
      if s.length ≠ ptr.size then .err (.ioError "Could not read full block length")
      else .ok ⟨s⟩

/-- The `BOOST_FOREACH` loop body of `GetIndexRootBlock`
(cfile_reader.cc:190-197): first descriptor whose identifier matches, else
`NotFound`. -/
def findBTreeRoot (identifier : String) : List BTreeInfoPB → Except Error BlockPointer
  | [] => .error (.notFound "no such index")
  | info :: rest =>
    if info.identifier = identifier then .ok info.rootBlock
    else findBTreeRoot identifier rest

/-- `CFileReader::GetIndexRootBlock` (cfile_reader.cc:188-198).  The C++
method dereferences `footer_` unconditionally; a null footer is undefined
behaviour, modelled as fatal. -/
def CFileReader.GetIndexRootBlock (r : CFileReader) (identifier : String) :
    Outcome BlockPointer :=
  match r.footer with
  | none => .fatal "null footer dereference"
  | some ftr =>
    match findBTreeRoot identifier ftr.btrees with
    | .ok ptr => .ok ptr
    | .error e => .err e

/-- Modelled from the spec: `kPositionalIndexIdentifier`, declared in
`cfile.h` which is not under `src/`; the spec (section 8) names the
positional index under the identifier "idx.positional".  Only its fixedness
matters to the claims. -/
def kPositionalIndexIdentifier : String := "idx.positional"

/-- Modelled from the spec: a parsed `IndexBlockReader<K>` (index_block.h is
not under `src/`): after a successful `Parse()` it exposes `IsLeaf()` and
`Search(key)`, which finds the entry with the greatest key at-or-before the
search key and returns the pointed-to block plus that entry's key (or
fails). -/
structure ParsedIndexBlock (K : Type) where
  IsLeaf : Bool
  Search : K → Except Error (BlockPointer × K)

/-- Modelled from the spec: the `IndexBlockReader<K>` collaborator's
construction-plus-`Parse()` over the block bytes, failing on a malformed
index block. -/
structure IndexBlockModel (K : Type) where
  Parse : List Nat → Except Error (ParsedIndexBlock K)

/-- One level of `SearchDownward` (cfile_reader.cc:150-173) up to the leaf
test: `ReadBlock`, parse the index block, `Search` the key; yields the
block's leaf flag, the pointer found, and the associated key. -/
def SearchStep {K : Type} (f : FileModel) (ibm : IndexBlockModel K)
    (r : CFileReader) (searchKey : K) (inBlock : BlockPointer) :
    Outcome (Bool × BlockPointer × K) :=
  match r.ReadBlock f inBlock with
  | .fatal m => .fatal m
  | .err e => .err e
  | .ok data =>
    match ibm.Parse data.data with
    | .error e => .err e
    | .ok idxReader =>
      match idxReader.Search searchKey with
      | .error e => .err e
      | .ok (result, retKey) => .ok (idxReader.IsLeaf, result, retKey)

/-- `SearchDownward` (cfile_reader.cc:150-173): if the block is a leaf the
found pointer is the answer, otherwise recurse into it.  The C++ recursion is
unbounded, so the embedding carries fuel: `none` means the recursion did not
terminate within the given fuel. -/
def SearchDownward {K : Type} (f : FileModel) (ibm : IndexBlockModel K)
    (r : CFileReader) (searchKey : K) :
    Nat → BlockPointer → Option (Outcome (BlockPointer × K))
  | 0, _ => none
  | fuel + 1, inBlock =>
    match SearchStep f ibm r searchKey inBlock with
    | .fatal m => some (.fatal m)
    | .err e => some (.err e)
    | .ok (true, result, retKey) => some (.ok (result, retKey))
    | .ok (false, result, _) => SearchDownward f ibm r searchKey fuel result

/-- `CFileReader::SearchPosition` (cfile_reader.cc:176-186): fatal unless
initialized; resolve the positional index root; descend. -/
def CFileReader.SearchPosition (f : FileModel) (ibm : IndexBlockModel Nat)
    (r : CFileReader) (pos : Nat) (fuel : Nat) :
    Option (Outcome (BlockPointer × Nat)) :=
  if r.state ≠ .kInitialized then some (.fatal "Must Init() first")
  else
    match r.GetIndexRootBlock kPositionalIndexIdentifier with
    | .fatal m => some (.fatal m)
    | .err e => some (.err e)
    | .ok root => SearchDownward f ibm r pos fuel root

/-- Modelled from the spec: the `IntBlockDecoder` collaborator's state
(int_block.h is not under `src/`): after `ParseHeader` it knows the ordinal
of the block's first entry, the number of entries, and a current position;
`ordinal_pos()` returns the current ordinal. -/
structure IntBlockDecoder where
  firstOrdinal : Nat
  count : Nat
  pos : Nat
deriving DecidableEq, Repr

/-- `ordinal_pos()` of the decoder: its current ordinal position. -/
def IntBlockDecoder.ordinal_pos (d : IntBlockDecoder) : Nat := d.pos

/-- `Count()` of the decoder: number of entries in the block. -/
def IntBlockDecoder.Count (d : IntBlockDecoder) : Nat := d.count

/-- Modelled from the spec: `SeekToPositionInBlock(n)` positions the decoder
at relative entry `n`, so its current ordinal becomes first + n. -/
def IntBlockDecoder.SeekToPositionInBlock (d : IntBlockDecoder) (n : Nat) :
    IntBlockDecoder :=
  { d with pos := d.firstOrdinal + n }

/-- Modelled from the spec: the decoder's `ParseHeader` over the data block
bytes yields the block's first ordinal (`ordinal_pos` right after the parse)
and its entry count, or fails on a malformed block. -/
structure DecoderModel where
  ParseHeader : List Nat → Except Error (Nat × Nat)

/-- Modelled from the spec: `IndexTreeIterator<uint32>` (index_btree.h is not
under `src/`): `SeekAtOrBefore(key)` positions the cursor at the entry with
the greatest key not exceeding the target in the immutable tree (failing,
e.g. with NotFound, when there is none), after which
`GetCurrentBlockPointer()` is the pointed-to data block.  Over an immutable
file this visible behaviour is a function of the target key alone. -/
structure IndexTreeIteratorModel where
  SeekAtOrBefore : Nat → Except Error BlockPointer

/-- `CFileIterator` mutable state (cfile_reader.h / cfile_reader.cc:203-256):
the `seeked_` flag, the last read data block, and the decoder over it.  The
reader reference and the index-tree cursor are carried as arguments. -/
structure CFileIterator where
  seeked : Bool
  dblk_data : Option BlockData
  dblk : Option IntBlockDecoder
deriving DecidableEq, Repr

/-- The `CFileIterator` constructor (cfile_reader.cc:203-209):
`seeked_(false)`, no block read yet. -/
def CFileIterator.new : CFileIterator := ⟨false, none, none⟩

/-- `CFileIterator::SeekToOrdinal` (cfile_reader.cc:211-250).  Returns the
status outcome together with the iterator state after the call.  `seeked_`
is cleared first and set only at the very end.  The two `DCHECK`s
(cfile_reader.cc:237-246) are modelled as fatal branches.  On a failed
decoder header parse, `dblk_` holds a freshly constructed, unparsed decoder;
that is modelled as `none`. -/
def CFileIterator.SeekToOrdinal (f : FileModel) (r : CFileReader)
    (idx : IndexTreeIteratorModel) (dm : DecoderModel)
    (it : CFileIterator) (ord_idx : Nat) : Outcome Unit × CFileIterator :=
  let it0 := { it with seeked := false }
  match idx.SeekAtOrBefore ord_idx with
  | .error e => (.err e, it0)
  | .ok dblk_ptr =>
    match r.ReadBlock f dblk_ptr with
    | .fatal m => (.fatal m, it0)
    | .err e => (.err e, it0)
    | .ok data =>
      let it1 := { it0 with dblk_data := some data }
      match dm.ParseHeader data.data with
      | .error e => (.err e, { it1 with dblk := none })
      | .ok (first, count) =>
        let d0 : IntBlockDecoder := ⟨first, count, first⟩
        let it2 := { it1 with dblk := some d0 }
        if ord_idx ≥ first + count then
          (.err (.notFound "trying to seek past highest ordinal in file"), it2)
        else if ¬ (ord_idx ≥ first ∧ ord_idx < first + count) then
          (.fatal "got wrong data block", it2)
        else
          let d1 := d0.SeekToPositionInBlock (ord_idx - first)
          let it3 := { it2 with dblk := some d1 }
          if ord_idx ≠ d1.ordinal_pos then (.fatal "failed seek", it3)
          else (.ok (), { it3 with seeked := true })

/-- `CFileIterator::GetCurrentOrdinal` (cfile_reader.cc:252-256): fatal
unless seeked; returns the decoder's current ordinal.  A null `dblk_` would
be undefined behaviour, modelled as fatal (unreachable while seeked). -/
def CFileIterator.GetCurrentOrdinal (it : CFileIterator) : Outcome Nat :=
  if ¬ it.seeked then .fatal "not seeked"
  else
    match it.dblk with
    | some d => .ok d.ordinal_pos
    | none => .fatal "null decoder dereference"

/-- The descent relation described by the spec for `SearchDownward`: from a
block pointer, one read-parse-search step either fails (propagated verbatim),
ends at a leaf whose search result is the answer, or continues into the child
pointer returned by an internal block. -/
inductive FollowsSearch {K : Type} (f : FileModel) (ibm : IndexBlockModel K)
    (r : CFileReader) (key : K) : BlockPointer → Outcome (BlockPointer × K) → Prop where
  | fatal (ptr : BlockPointer) (m : String) :
      SearchStep f ibm r key ptr = .fatal m →
      FollowsSearch f ibm r key ptr (.fatal m)
  | err (ptr : BlockPointer) (e : Error) :
      SearchStep f ibm r key ptr = .err e →
      FollowsSearch f ibm r key ptr (.err e)
  | leaf (ptr res : BlockPointer) (k : K) :
      SearchStep f ibm r key ptr = .ok (true, res, k) →
      FollowsSearch f ibm r key ptr (.ok (res, k))
  | internal (ptr res : BlockPointer) (k : K) (o : Outcome (BlockPointer × K)) :
      SearchStep f ibm r key ptr = .ok (false, res, k) →
      FollowsSearch f ibm r key res o →
      FollowsSearch f ibm r key ptr o

/-- A file whose every read fails with an I/O error. -/
def exFErr : FileModel := ⟨100, fun _ _ => .error (.ioError "io")⟩

/-- Parsers that reject every payload. -/
def exPNone : ParserModel := ⟨fun _ _ => none, fun _ _ => none⟩

/-- Parsers that accept every payload, producing a footer with one positional
index descriptor. -/
def exPAccept : ParserModel :=
  ⟨fun s _ => some ⟨s⟩, fun _ _ => some ⟨[⟨"idx.positional", ⟨5, 1⟩⟩]⟩⟩

/-- A 100-byte file with valid header framing (payload length 1) whose footer
preamble at offset 88 has BAD magic, but whose garbage-length footer payload
read (10 bytes at offset 78) succeeds. -/
def exC1f : FileModel :=
  ⟨100, fun off len =>
    if off = 0 ∧ len = 12 then .ok (kMagicString ++ [1, 0, 0, 0])
    else if off = 12 ∧ len = 1 then .ok [7]
    else if off = 88 ∧ len = 12 then .ok (List.replicate 12 0)
    else if off = 78 ∧ len = 10 then .ok (List.replicate 10 1)
    else .error (.ioError "unexpected read")⟩

/-- A 100-byte file with valid header and footer framing (footer payload of
10 bytes at offset 78). -/
def exFGood : FileModel :=
  ⟨100, fun off len =>
    if off = 0 ∧ len = 12 then .ok (kMagicString ++ [1, 0, 0, 0])
    else if off = 12 ∧ len = 1 then .ok [7]
    else if off = 88 ∧ len = 12 then .ok (kMagicString ++ [10, 0, 0, 0])
    else if off = 78 ∧ len = 10 then .ok (List.replicate 10 1)
    else .error (.ioError "unexpected read")⟩

/-- An initialized reader with no parsed records, for operations that do not
consult them. -/
def exRInit : CFileReader := ⟨.kInitialized, none, none⟩

/-- A 100-byte file that returns the same 8 bytes for every read. -/
def exF8 : FileModel := ⟨100, fun _ _ => .ok (List.replicate 8 0)⟩

/-- A 100-byte file that returns the same 5 bytes for every read. -/
def exF5 : FileModel := ⟨100, fun _ _ => .ok [1, 2, 3, 4, 5]⟩

/-- A file holding one one-byte data block at offset 5. -/
def exFIter : FileModel :=
  ⟨100, fun off len =>
    if off = 5 ∧ len = 1 then .ok [42] else .error (.ioError "no block")⟩

/-- An index-tree cursor that resolves every ordinal to the data block at
offset 5. -/
def exIdxIter : IndexTreeIteratorModel := ⟨fun _ => .ok ⟨5, 1⟩⟩

/-- A decoder model: the block byte 42 decodes to first ordinal 0, count
100. -/
def exDm : DecoderModel :=
  ⟨fun bytes => if bytes = [42] then .ok (0, 100) else .error (.corruption "bad dblk")⟩

/-- A two-level index: the internal block [0] at offset 5 points to the leaf
block [1] at offset 7. -/
def exC8f : FileModel :=
  ⟨100, fun off _ =>
    if off = 5 then .ok [0]
    else if off = 7 then .ok [1]
    else .error (.ioError "no block")⟩

/-- An index-block parser for `exC8f`: byte 0 is an internal block whose
search returns the child at offset 7; anything else is a leaf. -/
def exC8ibm : IndexBlockModel Nat :=
  ⟨fun bytes =>
    if bytes = [0] then .ok ⟨false, fun k => .ok (⟨7, 1⟩, k)⟩
    else .ok ⟨true, fun k => .ok (⟨9, 9⟩, k)⟩⟩

/-- Depth measure for the `exC8f` index tree: the leaf block is at depth 0,
everything else above it. -/
def exC8d : BlockPointer → Nat := fun ptr => if ptr = ⟨7, 1⟩ then 0 else 1

section Lemmas

/-- `findBTreeRoot` succeeds exactly at the first matching descriptor. -/
theorem findBTreeRoot_ok_iff (identifier : String) (l : List BTreeInfoPB)
    (ptr : BlockPointer) :
    findBTreeRoot identifier l = .ok ptr →
    ∃ pre info post, l = pre ++ info :: post ∧
      info.identifier = identifier ∧ ptr = info.rootBlock ∧
      ∀ j ∈ pre, j.identifier ≠ identifier := by
  induction l with
  | nil => intro h; simp [findBTreeRoot] at h
  | cons info rest ih =>
    intro h
    by_cases hid : info.identifier = identifier
    · refine ⟨[], info, rest, by simp, hid, ?_, by simp⟩
      simp [findBTreeRoot, hid] at h
      exact h.symm
    · rw [findBTreeRoot, if_neg hid] at h
      obtain ⟨pre, info', post, hl, hinfo, hptr, hpre⟩ := ih h
      refine ⟨info :: pre, info', post, by simp [hl], hinfo, hptr, ?_⟩
      intro j hj
      rcases List.mem_cons.mp hj with hj | hj
      · exact hj ▸ hid
      · exact hpre j hj

/-- `findBTreeRoot` returns `NotFound` when no descriptor matches. -/
theorem findBTreeRoot_none (identifier : String) (l : List BTreeInfoPB) :
    (∀ info ∈ l, info.identifier ≠ identifier) →
    findBTreeRoot identifier l = .error (.notFound "no such index") := by
  induction l with
  | nil => intro _; rfl
  | cons info rest ih =>
    intro h
    rw [findBTreeRoot, if_neg (h info (by simp))]
    exact ih fun j hj => h j (List.mem_cons_of_mem _ hj)

/-- `findBTreeRoot` succeeds with the root of the first matching
descriptor. -/
theorem findBTreeRoot_first (identifier : String) (pre : List BTreeInfoPB)
    (info : BTreeInfoPB) (post : List BTreeInfoPB)
    (hinfo : info.identifier = identifier)
    (hpre : ∀ j ∈ pre, j.identifier ≠ identifier) :
    findBTreeRoot identifier (pre ++ info :: post) = .ok info.rootBlock := by
  induction pre with
  | nil => simp [findBTreeRoot, hinfo]
  | cons j rest ih =>
    rw [List.cons_append, findBTreeRoot, if_neg (hpre j (by simp))]
    exact ih fun x hx => hpre x (List.mem_cons_of_mem _ hx)

/-- `ReadAndParseHeader` never changes the lifecycle state flag. -/
theorem ReadAndParseHeader_state (f : FileModel) (p : ParserModel)
    (r : CFileReader) : (r.ReadAndParseHeader f p).2.state = r.state := by
  unfold CFileReader.ReadAndParseHeader
  split
  · rfl
  · split
    · rfl
    · dsimp only
      split
      · rfl
      · split <;> rfl

/-- `ReadAndParseFooter` never changes the lifecycle state flag. -/
theorem ReadAndParseFooter_state (f : FileModel) (p : ParserModel)
    (garbage : Nat) (r : CFileReader) :
    (r.ReadAndParseFooter f p garbage).2.state = r.state := by
  unfold CFileReader.ReadAndParseFooter
  split
  · rfl
  · split
    · rfl
    · split
      dsimp only
      split
      · rfl
      · split <;> rfl

/-- The only fatal `ReadAndParseHeader` can raise is its own state check. -/
theorem ReadAndParseHeader_fatal_msg (f : FileModel) (p : ParserModel)
    (r : CFileReader) (m : String) :
    (r.ReadAndParseHeader f p).1 = .fatal m → m = "bad state (header)" := by
  unfold CFileReader.ReadAndParseHeader
  split
  · intro h
    have h2 : Outcome.fatal "bad state (header)" = Outcome.fatal m := h
    injection h2 with h'
    exact h'.symm
  · split
    · intro h; simp at h
    · dsimp only
      split
      · intro h; simp at h
      · split <;> · intro h; simp at h

/-- The only fatals `ReadAndParseFooter` can raise are its two entry
checks. -/
theorem ReadAndParseFooter_fatal_msg (f : FileModel) (p : ParserModel)
    (garbage : Nat) (r : CFileReader) (m : String) :
    (r.ReadAndParseFooter f p garbage).1 = .fatal m →
    m = "bad state (footer)" ∨ m = "file too short" := by
  unfold CFileReader.ReadAndParseFooter
  split
  · intro h
    have h2 : Outcome.fatal "bad state (footer)" = Outcome.fatal m := h
    injection h2 with h'
    exact .inl h'.symm
  · split
    · intro h
      have h2 : Outcome.fatal "file too short" = Outcome.fatal m := h
      injection h2 with h'
      exact .inr h'.symm
    · split
      dsimp only
      split
      · intro h; simp at h
      · split <;> · intro h; simp at h

/-- A successful `SeekToOrdinal` ends seeked with the decoder positioned
exactly at the target ordinal, and its resulting state is independent of the
iterator state it started from. -/
theorem SeekToOrdinal_ok (f : FileModel) (r : CFileReader)
    (idx : IndexTreeIteratorModel) (dm : DecoderModel)
    (it it' : CFileIterator) (ord : Nat)
    (h : CFileIterator.SeekToOrdinal f r idx dm it ord = (.ok (), it')) :
    it'.seeked = true ∧ it'.GetCurrentOrdinal = .ok ord ∧
    ∀ it'' : CFileIterator,
      CFileIterator.SeekToOrdinal f r idx dm it'' ord = (.ok (), it') := by
  unfold CFileIterator.SeekToOrdinal at h
  split at h
  · simp at h
  · rename_i dblk_ptr heq1
    split at h
    · simp at h
    · simp at h
    · rename_i data heq2
      try dsimp only at h
      split at h
      · simp at h
      · rename_i fc first count heq3
        try dsimp only at h
        split at h
        · simp at h
        · rename_i hnot1
          split at h
          · simp at h
          · rename_i hnot2
            try dsimp only at h
            split at h
            · simp at h
            · rename_i hne
              injection h with h1 h2
              subst h2
              have hord : ord = first + (ord - first) := by
                have := not_not.mp hnot2
                omega
              refine ⟨rfl, ?_, ?_⟩
              · simp only [CFileIterator.GetCurrentOrdinal,
                  IntBlockDecoder.SeekToPositionInBlock, IntBlockDecoder.ordinal_pos]
                simp [← hord]
              · intro it''
                unfold CFileIterator.SeekToOrdinal
                try dsimp only
                rw [heq1]
                try dsimp only
                rw [heq2]
                try dsimp only
                rw [heq3]
                try dsimp only
                rw [if_neg hnot1, if_neg hnot2]
                try dsimp only
                rw [if_neg hne]

/-- Any `SeekToOrdinal` that does not return OK leaves `seeked_ = false`. -/
theorem SeekToOrdinal_fail (f : FileModel) (r : CFileReader)
    (idx : IndexTreeIteratorModel) (dm : DecoderModel)
    (it it' : CFileIterator) (ord : Nat) (s : Outcome Unit)
    (h : CFileIterator.SeekToOrdinal f r idx dm it ord = (s, it'))
    (hs : s ≠ .ok ()) : it'.seeked = false := by
  unfold CFileIterator.SeekToOrdinal at h
  split at h
  · injection h with h1 h2
    subst h2
    rfl
  · rename_i dblk_ptr heq1
    split at h
    · injection h with h1 h2
      subst h2
      rfl
    · injection h with h1 h2
      subst h2
      rfl
    · rename_i data heq2
      try dsimp only at h
      split at h
      · injection h with h1 h2
        subst h2
        rfl
      · rename_i fc first count heq3
        try dsimp only at h
        split at h
        · injection h with h1 h2
          subst h2
          rfl
        · split at h
          · injection h with h1 h2
            subst h2
            rfl
          · try dsimp only at h
            split at h
            · injection h with h1 h2
              subst h2
              rfl
            · injection h with h1 h2
              exact absurd h1.symm hs

end Lemmas

/-- Claim C3: `ParseMagicAndLength` returns a Corruption error for every
input that is not exactly 12 bytes, or whose first 8 bytes differ from the
magic constant, or whose trailing little-endian u32 length is 0 or greater
than 65536; for every other 12-byte input it succeeds and yields the decoded
length. -/
theorem ParseMagicAndLength_cases (data : List Nat) :
    (data.length ≠ kMagicAndLengthSize →
      parseMagicAndLength data = (.error (.corruption "Bad size data"), none))
  ∧ (data.length = kMagicAndLengthSize → data.take 8 ≠ kMagicString →
      parseMagicAndLength data = (.error (.corruption "bad magic"), none))
  ∧ (data.length = kMagicAndLengthSize → data.take 8 = kMagicString →
      (preambleLen data = 0 ∨ preambleLen data > kMaxHeaderFooterPBSize) →
      parseMagicAndLength data =
        (.error (.corruption "invalid data size"), some (preambleLen data)))
  ∧ (data.length = kMagicAndLengthSize → data.take 8 = kMagicString →
      preambleLen data ≠ 0 → preambleLen data ≤ kMaxHeaderFooterPBSize →
      parseMagicAndLength data = (.ok (), some (preambleLen data))) := by
  refine ⟨?_, ?_, ?_, ?_⟩
  · intro h1
    simp [parseMagicAndLength, h1]
  · intro h1 h2
    simp [parseMagicAndLength, h1, h2]
  · intro h1 h2 h3
    simp only [parseMagicAndLength, h1, h2]
    simp only [ne_eq, not_true_eq_false, if_false, ite_not]
    rcases h3 with h3 | h3 <;> simp [h3, Nat.le_zero]
  · intro h1 h2 h3 h4
    simp only [parseMagicAndLength, h1, h2]
    simp only [ne_eq, not_true_eq_false, if_false, ite_not]
    simp [Nat.le_zero, h3, h4, Nat.not_lt.mpr h4]

/-- Witness for C3: a concrete well-formed preamble (magic plus little-endian
length 1) decodes successfully to length 1. -/
theorem ParseMagicAndLength_cases_witness :
    parseMagicAndLength (kMagicString ++ [1, 0, 0, 0]) = (.ok (), some 1) := by
  have h := (ParseMagicAndLength_cases (kMagicString ++ [1, 0, 0, 0])).2.2.2
    (by decide) (by decide) (by decide) (by decide)
  rw [h]
  rfl

/-- Claim C7: on an initialized reader (whose footer record is present),
`GetIndexRootBlock` returns the root pointer of the first descriptor whose
identifier matches exactly (completeness and soundness), fails with NotFound
when no descriptor matches, and its result is determined by the footer alone
(immutable after `Init`), so repeated calls with the same identifier return
bit-identical pointers. -/
theorem GetIndexRootBlock_first_match (r : CFileReader) (ftr : CFileFooterPB)
    (identifier : String) (hftr : r.footer = some ftr) :
    (∀ pre info post, ftr.btrees = pre ++ info :: post →
      info.identifier = identifier →
      (∀ j ∈ pre, j.identifier ≠ identifier) →
      r.GetIndexRootBlock identifier = .ok info.rootBlock)
  ∧ (∀ ptr, r.GetIndexRootBlock identifier = .ok ptr →
      ∃ pre info post, ftr.btrees = pre ++ info :: post ∧
        info.identifier = identifier ∧ ptr = info.rootBlock ∧
        ∀ j ∈ pre, j.identifier ≠ identifier)
  ∧ ((∀ info ∈ ftr.btrees, info.identifier ≠ identifier) →
      r.GetIndexRootBlock identifier = .err (.notFound "no such index"))
  ∧ (∀ r2 : CFileReader, r2.footer = r.footer →
      r2.GetIndexRootBlock identifier = r.GetIndexRootBlock identifier) := by
  refine ⟨?_, ?_, ?_, ?_⟩
  · intro pre info post hl hinfo hpre
    simp only [CFileReader.GetIndexRootBlock, hftr]
    rw [hl, findBTreeRoot_first identifier pre info post hinfo hpre]
  · intro ptr h
    simp only [CFileReader.GetIndexRootBlock, hftr] at h
    cases hf : findBTreeRoot identifier ftr.btrees with
    | ok q =>
      rw [hf] at h
      injection h with h'
      subst h'
      exact findBTreeRoot_ok_iff _ _ _ hf
    | error e =>
      rw [hf] at h
      cases h
  · intro hall
    simp only [CFileReader.GetIndexRootBlock, hftr]
    rw [findBTreeRoot_none identifier ftr.btrees hall]
  · intro r2 h2
    simp only [CFileReader.GetIndexRootBlock, hftr, h2.trans hftr]

/-- Witness for C7: on a concrete two-descriptor footer, looking up the
positional-index identifier succeeds with the root of the first (here the
second-listed) matching descriptor, and looking up a missing identifier
yields NotFound. -/
theorem GetIndexRootBlock_first_match_witness :
    (⟨.kInitialized, none,
        some ⟨[⟨"a", ⟨1, 2⟩⟩, ⟨"idx.positional", ⟨5, 1⟩⟩]⟩⟩ :
      CFileReader).GetIndexRootBlock "idx.positional" = .ok ⟨5, 1⟩
  ∧ (⟨.kInitialized, none, some ⟨[⟨"a", ⟨1, 2⟩⟩]⟩⟩ :
      CFileReader).GetIndexRootBlock "zz" = .err (.notFound "no such index") :=
  ⟨(GetIndexRootBlock_first_match _
      ⟨[⟨"a", ⟨1, 2⟩⟩, ⟨"idx.positional", ⟨5, 1⟩⟩]⟩ "idx.positional" rfl).1
      [⟨"a", ⟨1, 2⟩⟩] ⟨"idx.positional", ⟨5, 1⟩⟩ [] rfl rfl (by decide),
   (GetIndexRootBlock_first_match _ ⟨[⟨"a", ⟨1, 2⟩⟩]⟩ "zz" rfl).2.2.1 (by decide)⟩

/-- Claim C6: a reader is created uninitialized; `Init` is fatal unless the
state is `kUninitialized` and transitions to `kInitialized` only after both
the header and the footer parse succeed; `ReadBlock` and `SearchPosition`
are fatal before the reader is initialized. -/
theorem reader_lifecycle :
    CFileReader.new.state = .kUninitialized
  ∧ (∀ (f : FileModel) (p : ParserModel) (g : Nat) (r : CFileReader),
      r.state ≠ .kUninitialized →
      CFileReader.Init f p g r = (.fatal "should be uninitialized before Init()", r))
  ∧ (∀ (f : FileModel) (p : ParserModel) (g : Nat) (r r' : CFileReader),
      CFileReader.Init f p g r = (.ok (), r') →
      r'.state = .kInitialized ∧
      ∃ r1, r.ReadAndParseHeader f p = (.ok (), r1) ∧
        (r1.ReadAndParseFooter f p g).1 = .ok ())
  ∧ (∀ (f : FileModel) (r : CFileReader) (ptr : BlockPointer),
      r.state ≠ .kInitialized →
      r.ReadBlock f ptr = .fatal "bad state (ReadBlock)")
  ∧ (∀ (f : FileModel) (ibm : IndexBlockModel Nat) (r : CFileReader)
      (pos fuel : Nat), r.state ≠ .kInitialized →
      r.SearchPosition f ibm pos fuel = some (.fatal "Must Init() first")) := by
  refine ⟨rfl, ?_, ?_, ?_, ?_⟩
  · intro f p g r h
    unfold CFileReader.Init
    rw [if_pos h]
  · intro f p g r r' h
    unfold CFileReader.Init at h
    split at h
    · simp at h
    · split at h
      · rename_i r1 heq1
        split at h
        · rename_i r2 heq2
          injection h with h1 h2
          refine ⟨h2 ▸ rfl, r1, heq1, ?_⟩
          rw [heq2]
        · simp at h
        · simp at h
      · simp at h
      · simp at h
  · intro f r ptr h
    unfold CFileReader.ReadBlock
    rw [if_pos h]
  · intro f ibm r pos fuel h
    unfold CFileReader.SearchPosition
    rw [if_pos h]

/-- Witness for C6: `Init` on an already-initialized reader trips the fatal
state check, and `ReadBlock` on a fresh reader is fatal. -/
theorem reader_lifecycle_witness :
    CFileReader.Init exFErr exPNone 0 exRInit =
      (.fatal "should be uninitialized before Init()", exRInit)
  ∧ CFileReader.new.ReadBlock exFErr ⟨1, 1⟩ = .fatal "bad state (ReadBlock)"
  ∧ (⟨.kInitialized, some ⟨[7]⟩, some ⟨[⟨"idx.positional", ⟨5, 1⟩⟩]⟩⟩ : CFileReader).state =
      .kInitialized :=
  ⟨reader_lifecycle.2.1 exFErr exPNone 0 exRInit (by decide),
   reader_lifecycle.2.2.2.1 exFErr CFileReader.new ⟨1, 1⟩ (by decide),
   (reader_lifecycle.2.2.1 exFGood exPAccept 0 CFileReader.new
     ⟨.kInitialized, some ⟨[7]⟩, some ⟨[⟨"idx.positional", ⟨5, 1⟩⟩]⟩⟩ (by decide)).1⟩

/-- Claim C10: an `Init` call that returns an error leaves the reader's
state flag `kUninitialized` (unchanged), and a subsequent `Init` call on
that reader does not trip the fatal state check. -/
theorem Init_failure_leaves_uninitialized (f : FileModel) (p : ParserModel)
    (g : Nat) (r r' : CFileReader) (e : Error)
    (h : CFileReader.Init f p g r = (.err e, r')) :
    r'.state = .kUninitialized ∧ r'.state = r.state ∧
    ∀ f2 p2 g2, (CFileReader.Init f2 p2 g2 r').1 ≠
      .fatal "should be uninitialized before Init()" := by
  have hmain : r'.state = .kUninitialized ∧ r'.state = r.state := by
    unfold CFileReader.Init at h
    split at h
    · simp at h
    · rename_i hU
      have hrU : r.state = .kUninitialized := not_ne_iff.mp hU
      split at h
      · rename_i r1 heq1
        split at h
        · simp at h
        · rename_i e2 r2 heq2
          injection h with h1 h2
          subst h2
          have hf := ReadAndParseFooter_state f p g r1
          rw [heq2] at hf
          have hh := ReadAndParseHeader_state f p r
          rw [heq1] at hh
          have hr2 : r2.state = r.state := hf.trans hh
          exact ⟨hr2.trans hrU, hr2⟩
        · simp at h
      · rename_i e1 r1 heq1
        injection h with h1 h2
        subst h2
        have hh := ReadAndParseHeader_state f p r
        rw [heq1] at hh
        exact ⟨hh.trans hrU, hh⟩
      · simp at h
  refine ⟨hmain.1, hmain.2, ?_⟩
  intro f2 p2 g2 hbad
  unfold CFileReader.Init at hbad
  rw [if_neg (by rw [hmain.1]; simp)] at hbad
  split at hbad
  · rename_i r1 heq1
    split at hbad
    · simp at hbad
    · simp at hbad
    · rename_i m r2 heq2
      have h2 : Outcome.fatal m = Outcome.fatal "should be uninitialized before Init()" := hbad
      injection h2 with h3
      have := ReadAndParseFooter_fatal_msg f2 p2 g2 r1 m (by rw [heq2])
      rcases this with h4 | h4 <;> rw [h3] at h4 <;> exact absurd h4 (by decide)
  · simp at hbad
  · rename_i m r1 heq1
    have h2 : Outcome.fatal m = Outcome.fatal "should be uninitialized before Init()" := hbad
    injection h2 with h3
    have := ReadAndParseHeader_fatal_msg f2 p2 r' m (by rw [heq1])
    rw [h3] at this
    exact absurd this (by decide)

/-- Witness for C10: a file whose every read fails makes `Init` return the
I/O error, and the fresh reader is left uninitialized. -/
theorem Init_failure_leaves_uninitialized_witness :
    CFileReader.new.state = .kUninitialized :=
  (Init_failure_leaves_uninitialized exFErr exPNone 0 CFileReader.new
    CFileReader.new (.ioError "io") rfl).1

/-- Claim C1 (code-bug evidence): on the concrete file `exC1f` the
read/decode of the 12-byte footer preamble at file_size - 12 fails with a
corruption error, yet `Init` does not return that failure — it continues
with the uninitialized footer length (here the stack garbage value 10) and
returns OK.  The status of the `ReadMagicAndLength` call at
cfile_reader.cc:101 is discarded. -/
theorem Init_ignores_failed_footer_preamble :
    readMagicAndLength exC1f (exC1f.size - kMagicAndLengthSize) =
      (.error (.corruption "bad magic"), none)
  ∧ (CFileReader.Init exC1f exPAccept 10 CFileReader.new).1 = .ok () := by
  constructor
  · rfl
  · rfl

/-- Counterexample to C2 as stated: the pointer (2^64 - 4, 8) has an extent
that is not strictly inside the 100-byte file `exF8`, yet `ReadBlock` is not
fatal on it — the wrap-around sum passes the bounds check and the read
proceeds to a successful result. -/
theorem ReadBlock_extent_counterexample :
    ¬ ((2 ^ 64 - 4) + 8 < exF8.size)
  ∧ (2 ^ 64 - 4 : Nat) > 0
  ∧ exRInit.ReadBlock exF8 ⟨2 ^ 64 - 4, 8⟩ = .ok ⟨List.replicate 8 0⟩
  ∧ ∀ m, exRInit.ReadBlock exF8 ⟨2 ^ 64 - 4, 8⟩ ≠ .fatal m := by
  have he : exRInit.ReadBlock exF8 ⟨2 ^ 64 - 4, 8⟩ = .ok ⟨List.replicate 8 0⟩ := by
    rfl
  refine ⟨by decide, by decide, he, ?_⟩
  intro m h
  rw [he] at h
  cases h

/-- Reduction of `ReadBlock` once the state and bounds checks pass. -/
theorem ReadBlock_eq_of_guard (f : FileModel) (r : CFileReader)
    (ptr : BlockPointer) (hstate : r.state = .kInitialized)
    (hg : ptr.offset % 2 ^ 64 > 0 ∧ (ptr.offset + ptr.size) % 2 ^ 64 < f.size) :
    r.ReadBlock f ptr =
      match f.read ptr.offset ptr.size with
      | .error e => .err e
      | .ok s =>
        if s.length ≠ ptr.size then .err (.ioError "Could not read full block length")
        else .ok ⟨s⟩ := by
  unfold CFileReader.ReadBlock
  rw [if_neg (by rw [hstate]; simp), if_neg (not_not_intro hg)]

/-- Claim C2 (amended): for an initialized reader and a pointer with
offset > 0 whose extent is strictly inside the file, `ReadBlock` returns a
`BlockData` of exactly the bytes the read produced when their count matches
`ptr.size`, an I/O error when the read returns a different number of bytes,
and propagates a failing read; for a pointer with offset 0, or whose extent
is not strictly inside the file AND whose offset + size does not wrap around
2^64, `ReadBlock` is fatal.  (The wrap-around proviso is forced by the
counterexample: a pointer whose 64-bit sum wraps can pass the check, see
claim C9.) -/
theorem ReadBlock_contract (f : FileModel) (r : CFileReader)
    (ptr : BlockPointer) (hstate : r.state = .kInitialized)
    (hfs : f.size < 2 ^ 64) :
    (ptr.offset > 0 → ptr.offset + ptr.size < f.size →
      (∀ e, f.read ptr.offset ptr.size = .error e → r.ReadBlock f ptr = .err e)
      ∧ (∀ s, f.read ptr.offset ptr.size = .ok s →
          (s.length = ptr.size → r.ReadBlock f ptr = .ok ⟨s⟩)
          ∧ (s.length ≠ ptr.size →
              r.ReadBlock f ptr = .err (.ioError "Could not read full block length"))))
  ∧ (ptr.offset + ptr.size < 2 ^ 64 →
      (ptr.offset = 0 ∨ ptr.offset + ptr.size ≥ f.size) →
      r.ReadBlock f ptr = .fatal "bad offset") := by
  constructor
  · intro hoff hin
    have hlt : ptr.offset + ptr.size < 2 ^ 64 := hin.trans hfs
    have hg : ptr.offset % 2 ^ 64 > 0 ∧ (ptr.offset + ptr.size) % 2 ^ 64 < f.size := by
      constructor
      · rw [Nat.mod_eq_of_lt (lt_of_le_of_lt (Nat.le_add_right _ _) hlt)]
        exact hoff
      · rw [Nat.mod_eq_of_lt hlt]
        exact hin
    constructor
    · intro e he
      rw [ReadBlock_eq_of_guard f r ptr hstate hg, he]
    · intro s hs
      constructor
      · intro hlen
        rw [ReadBlock_eq_of_guard f r ptr hstate hg, hs]
        simp [hlen]
      · intro hlen
        rw [ReadBlock_eq_of_guard f r ptr hstate hg, hs]
        simp [hlen]
  · intro hlt hbad
    unfold CFileReader.ReadBlock
    rw [if_neg (by rw [hstate]; simp)]
    rw [if_pos]
    intro hg
    rcases hbad with h0 | hge
    · rw [h0] at hg
      simp at hg
    · rw [Nat.mod_eq_of_lt hlt] at hg
      exact absurd hg.2 (Nat.not_lt.mpr hge)

/-- Witness for C2: a concrete in-range read succeeds with exactly the read
bytes, and a concrete offset-0 pointer is fatal. -/
theorem ReadBlock_contract_witness :
    exRInit.ReadBlock exF5 ⟨10, 5⟩ = .ok ⟨[1, 2, 3, 4, 5]⟩
  ∧ exRInit.ReadBlock exF5 ⟨0, 5⟩ = .fatal "bad offset" :=
  ⟨(((ReadBlock_contract exF5 exRInit ⟨10, 5⟩ rfl (by decide)).1
      (by decide) (by decide)).2 [1, 2, 3, 4, 5] rfl).1 rfl,
   (ReadBlock_contract exF5 exRInit ⟨0, 5⟩ rfl (by decide)).2
     (by decide) (Or.inl rfl)⟩

/-- Claim C9: the in-bounds check of `ReadBlock` evaluates
`ptr.offset() + ptr.size()` in wrap-around modulo-2^64 arithmetic: the
condition it enforces is offset mod 2^64 > 0 and (offset + size) mod 2^64 <
file_size; concretely, the pointer (2^64 - 4, 8) passes the check and reads
successfully even though its extent lies outside the 100-byte file. -/
theorem ReadBlock_bounds_check_wraparound :
    (∀ (f : FileModel) (r : CFileReader) (ptr : BlockPointer),
      r.state = .kInitialized →
      ¬ (ptr.offset % 2 ^ 64 > 0 ∧ (ptr.offset + ptr.size) % 2 ^ 64 < f.size) →
      r.ReadBlock f ptr = .fatal "bad offset")
  ∧ (∀ (f : FileModel) (r : CFileReader) (ptr : BlockPointer),
      r.state = .kInitialized →
      ptr.offset % 2 ^ 64 > 0 → (ptr.offset + ptr.size) % 2 ^ 64 < f.size →
      ∀ m, r.ReadBlock f ptr ≠ .fatal m)
  ∧ ((2 ^ 64 - 4) + 8) % 2 ^ 64 < exF8.size
  ∧ ¬ ((2 ^ 64 - 4) + 8 < exF8.size)
  ∧ exRInit.ReadBlock exF8 ⟨2 ^ 64 - 4, 8⟩ = .ok ⟨List.replicate 8 0⟩ := by
  refine ⟨?_, ?_, by decide, by decide, by rfl⟩
  · intro f r ptr hstate hg
    unfold CFileReader.ReadBlock
    rw [if_neg (by rw [hstate]; simp), if_pos hg]
  · intro f r ptr hstate h1 h2 m
    rw [ReadBlock_eq_of_guard f r ptr hstate ⟨h1, h2⟩]
    cases f.read ptr.offset ptr.size with
    | error e => simp
    | ok s =>
      dsimp only
      split <;> simp

/-- Witness for C9: a pointer with offset 0 fails the check and is fatal on
a concrete initialized reader. -/
theorem ReadBlock_bounds_check_wraparound_witness :
    exRInit.ReadBlock exF8 ⟨0, 5⟩ = .fatal "bad offset" :=
  ReadBlock_bounds_check_wraparound.1 exF8 exRInit ⟨0, 5⟩ rfl (by decide)

/-- Claim C4: every successful `SeekToOrdinal(target)` sets the seeked flag
and makes `GetCurrentOrdinal` return exactly the target; seeking o1 then
o2 (o1 < o2) ends at exactly o2; and repeating the same ordinal yields the
same resulting iterator state. -/
theorem SeekToOrdinal_postcondition :
    (∀ (f : FileModel) (r : CFileReader) (idx : IndexTreeIteratorModel)
      (dm : DecoderModel) (it it' : CFileIterator) (ord : Nat),
      CFileIterator.SeekToOrdinal f r idx dm it ord = (.ok (), it') →
      it'.seeked = true ∧ it'.GetCurrentOrdinal = .ok ord)
  ∧ (∀ (f : FileModel) (r : CFileReader) (idx : IndexTreeIteratorModel)
      (dm : DecoderModel) (it it1 it2 : CFileIterator) (o1 o2 : Nat),
      o1 < o2 →
      CFileIterator.SeekToOrdinal f r idx dm it o1 = (.ok (), it1) →
      CFileIterator.SeekToOrdinal f r idx dm it1 o2 = (.ok (), it2) →
      it2.GetCurrentOrdinal = .ok o2)
  ∧ (∀ (f : FileModel) (r : CFileReader) (idx : IndexTreeIteratorModel)
      (dm : DecoderModel) (it it' : CFileIterator) (ord : Nat),
      CFileIterator.SeekToOrdinal f r idx dm it ord = (.ok (), it') →
      CFileIterator.SeekToOrdinal f r idx dm it' ord = (.ok (), it')) := by
  refine ⟨?_, ?_, ?_⟩
  · intro f r idx dm it it' ord h
    exact ⟨(SeekToOrdinal_ok f r idx dm it it' ord h).1,
           (SeekToOrdinal_ok f r idx dm it it' ord h).2.1⟩
  · intro f r idx dm it it1 it2 o1 o2 _ h1 h2
    exact (SeekToOrdinal_ok f r idx dm it1 it2 o2 h2).2.1
  · intro f r idx dm it it' ord h
    exact (SeekToOrdinal_ok f r idx dm it it' ord h).2.2 it'

/-- Witness for C4: on the concrete iterator environment, seeking ordinal 20
then 50 lands exactly on ordinal 50. -/
theorem SeekToOrdinal_postcondition_witness :
    (⟨true, some ⟨[42]⟩, some ⟨0, 100, 50⟩⟩ : CFileIterator).GetCurrentOrdinal = .ok 50 :=
  SeekToOrdinal_postcondition.2.1 exFIter exRInit exIdxIter exDm
    CFileIterator.new ⟨true, some ⟨[42]⟩, some ⟨0, 100, 20⟩⟩
    ⟨true, some ⟨[42]⟩, some ⟨0, 100, 50⟩⟩ 20 50 (by decide) rfl rfl

/-- Claim C5: every failed `SeekToOrdinal` leaves the iterator not seeked;
in particular a target at or beyond ordinal_pos + count of the found data
block fails with NotFound and leaves seeked = false; `GetCurrentOrdinal` is
fatal while not seeked. -/
theorem SeekToOrdinal_failure_not_seeked :
    (∀ (f : FileModel) (r : CFileReader) (idx : IndexTreeIteratorModel)
      (dm : DecoderModel) (it it' : CFileIterator) (ord : Nat)
      (s : Outcome Unit),
      CFileIterator.SeekToOrdinal f r idx dm it ord = (s, it') →
      s ≠ .ok () → it'.seeked = false)
  ∧ (∀ (f : FileModel) (r : CFileReader) (idx : IndexTreeIteratorModel)
      (dm : DecoderModel) (it : CFileIterator) (ord : Nat)
      (ptr : BlockPointer) (data : BlockData) (first count : Nat),
      idx.SeekAtOrBefore ord = .ok ptr →
      r.ReadBlock f ptr = .ok data →
      dm.ParseHeader data.data = .ok (first, count) →
      ord ≥ first + count →
      ∃ it', CFileIterator.SeekToOrdinal f r idx dm it ord =
        (.err (.notFound "trying to seek past highest ordinal in file"), it') ∧
        it'.seeked = false)
  ∧ (∀ it : CFileIterator, it.seeked = false →
      it.GetCurrentOrdinal = .fatal "not seeked") := by
  refine ⟨?_, ?_, ?_⟩
  · intro f r idx dm it it' ord s h hs
    exact SeekToOrdinal_fail f r idx dm it it' ord s h hs
  · intro f r idx dm it ord ptr data first count hseek hread hparse hge
    refine ⟨⟨false, some data, some ⟨first, count, first⟩⟩, ?_, rfl⟩
    unfold CFileIterator.SeekToOrdinal
    dsimp only
    rw [hseek]
    dsimp only
    rw [hread]
    dsimp only
    rw [hparse]
    dsimp only
    rw [if_pos hge]
  · intro it h
    unfold CFileIterator.GetCurrentOrdinal
    rw [h]
    simp

/-- Witness for C5: on the concrete iterator environment, seeking ordinal
150 (beyond the block's covered range [0, 100)) fails with NotFound and
leaves the iterator not seeked. -/
theorem SeekToOrdinal_failure_not_seeked_witness :
    ∃ it', CFileIterator.SeekToOrdinal exFIter exRInit exIdxIter exDm
        CFileIterator.new 150 =
      (.err (.notFound "trying to seek past highest ordinal in file"), it') ∧
      it'.seeked = false :=
  SeekToOrdinal_failure_not_seeked.2.1 exFIter exRInit exIdxIter exDm
    CFileIterator.new 150 ⟨5, 1⟩ ⟨[42]⟩ 0 100 rfl rfl rfl (by decide)

/-- With fuel exceeding a strictly decreasing depth measure, the fuelled
`SearchDownward` yields a result that follows the descent relation. -/
theorem SearchDownward_total {K : Type} (f : FileModel)
    (ibm : IndexBlockModel K) (r : CFileReader) (key : K)
    (d : BlockPointer → Nat)
    (hprog : ∀ ptr res k, SearchStep f ibm r key ptr = .ok (false, res, k) →
      d res < d ptr) :
    ∀ (fuel : Nat) (ptr : BlockPointer), d ptr < fuel →
      ∃ o, SearchDownward f ibm r key fuel ptr = some o ∧
        FollowsSearch f ibm r key ptr o := by
  intro fuel
  induction fuel with
  | zero => intro ptr h; omega
  | succ n ih =>
    intro ptr h
    cases hs : SearchStep f ibm r key ptr with
    | fatal m =>
      exact ⟨.fatal m, by simp [SearchDownward, hs], .fatal ptr m hs⟩
    | err e =>
      exact ⟨.err e, by simp [SearchDownward, hs], .err ptr e hs⟩
    | ok t =>
      obtain ⟨isLeaf, res, k⟩ := t
      cases isLeaf with
      | true =>
        exact ⟨.ok (res, k), by simp [SearchDownward, hs], .leaf ptr res k hs⟩
      | false =>
        obtain ⟨o, ho, hf⟩ := ih res (by have := hprog ptr res k hs; omega)
        exact ⟨o, by simp [SearchDownward, hs, ho], .internal ptr res k o hs hf⟩

/-- On the concrete two-level index `exC8f`/`exC8ibm`, every internal search
step strictly decreases the depth measure `exC8d`. -/
theorem exC8_progress :
    ∀ ptr res k, SearchStep exC8f exC8ibm exRInit (42 : Nat) ptr =
      .ok (false, res, k) → exC8d res < exC8d ptr := by
  intro ptr res k h
  unfold SearchStep at h
  split at h
  · simp at h
  · simp at h
  · rename_i data heq
    split at h
    · simp at h
    · rename_i idxReader heqp
      split at h
      · simp at h
      · rename_i result retKey heqs
        simp only [Outcome.ok.injEq, Prod.mk.injEq] at h
        obtain ⟨hleaf, hres, hk⟩ := h
        by_cases hb : data.data = [0]
        · have hidx : idxReader = ⟨false, fun k => .ok (⟨7, 1⟩, k)⟩ := by
            simp [exC8ibm, hb] at heqp
            exact heqp.symm
          subst hidx
          simp only [ParsedIndexBlock.Search] at heqs
          have hres7 : result = ⟨7, 1⟩ := by
            simp at heqs
            exact heqs.1.symm
          have hptr : ptr ≠ ⟨7, 1⟩ := by
            intro hp
            rw [hp] at heq
            have hv : CFileReader.ReadBlock exC8f exRInit ⟨7, 1⟩ = .ok ⟨[1]⟩ := by
              rfl
            have hd := hv.symm.trans heq
            simp at hd
            rw [← hd] at hb
            simp at hb
          rw [← hres, hres7]
          simp [exC8d, hptr]
        · have hidx : idxReader = ⟨true, fun k => .ok (⟨9, 9⟩, k)⟩ := by
            simp [exC8ibm, hb] at heqp
            exact heqp.symm
          rw [hidx] at hleaf
          simp at hleaf

/-- Claim C8: for every index tree with a depth measure that strictly
decreases into the child pointer returned by each internal block's search,
`SearchDownward` terminates for any fuel exceeding the starting depth and
returns the result described by the descent relation (an error propagated
verbatim, or the pointer and key produced by the search in the leaf block
reached by recursively following internal child pointers); on an
initialized reader whose positional index root resolves, the same holds for
`SearchPosition`. -/
theorem SearchDownward_terminates {K : Type} (f : FileModel)
    (ibm : IndexBlockModel K) (r : CFileReader) (key : K)
    (d : BlockPointer → Nat)
    (hprog : ∀ ptr res k, SearchStep f ibm r key ptr = .ok (false, res, k) →
      d res < d ptr) :
    (∀ (fuel : Nat) (ptr : BlockPointer), d ptr < fuel →
      ∃ o, SearchDownward f ibm r key fuel ptr = some o ∧
        FollowsSearch f ibm r key ptr o)
  ∧ (∀ (ibmN : IndexBlockModel Nat) (rN : CFileReader) (pos : Nat)
      (dN : BlockPointer → Nat) (fuel : Nat) (root : BlockPointer),
      rN.state = .kInitialized →
      (∀ ptr res k, SearchStep f ibmN rN pos ptr = .ok (false, res, k) →
        dN res < dN ptr) →
      rN.GetIndexRootBlock kPositionalIndexIdentifier = .ok root →
      dN root < fuel →
      ∃ o, rN.SearchPosition f ibmN pos fuel = some o ∧
        FollowsSearch f ibmN rN pos root o) := by
  constructor
  · exact SearchDownward_total f ibm r key d hprog
  · intro ibmN rN pos dN fuel root hstate hprogN hroot hfuel
    unfold CFileReader.SearchPosition
    rw [if_neg (by rw [hstate]; simp)]
    rw [hroot]
    exact SearchDownward_total f ibmN rN pos dN hprogN fuel root hfuel

/-- Witness for C8: on the concrete two-level index, fuel 2 suffices to
descend from the internal root at offset 5 to the leaf. -/
theorem SearchDownward_terminates_witness :
    ∃ o, SearchDownward exC8f exC8ibm exRInit (42 : Nat) 2 ⟨5, 1⟩ = some o ∧
      FollowsSearch exC8f exC8ibm exRInit 42 ⟨5, 1⟩ o :=
  (SearchDownward_terminates exC8f exC8ibm exRInit 42 exC8d exC8_progress).1
    2 ⟨5, 1⟩ (by decide)

end Kudu
